import Mathlib

/-
  A verification development for the TwitterFollowBot repository
  (src/TwitterBot.py).  The Python class TwitterBot is shallowly embedded:
  the remote Twitter API is a parameter (a function returning Except, or a
  list of mock answers for the paginated listing endpoints), the three
  snapshot files are explicit state, and each bot method becomes a pure
  Lean function mirroring the Python control flow line by line.
-/

namespace TwitterFollowBot

/-! ## Identifier serialization (snapshot file lines)

Snapshot files are plain text, one decimal identifier per line.  A line is
modelled as its list of characters (without the terminating newline). -/

/-- One decimal digit rendered as a character (48 is the code of the
character 0), as Python string formatting of an int produces. -/
def digitChar (d : Nat) : Char := Char.ofNat (48 + d)

/-- Numeric value of a digit character. -/
def charDigit (c : Char) : Nat := c.toNat - 48

/-- Decimal rendering of one identifier: the line written by the Python
expressions at lines 120/129/138/147 (percent-s formatting) and line 382
(str(val)), newline terminator left implicit. -/
def renderId (n : Nat) : List Char :=
  if n = 0 then [digitChar 0] else (Nat.digits 10 n).reverse.map digitChar

/-- Decimal parsing of one snapshot line: embeds Python int(line) at lines
163/181/199/376 (big-endian digit characters to a number). -/
def parseId (cs : List Char) : Nat :=
  Nat.ofDigits 10 ((cs.map charDigit).reverse)

/-- A snapshot file content: the list of its lines. -/
abbrev SnapshotFile := List (List Char)

/-- Embeds the snapshot write loops (sync_follows lines 118-120 and
auto_unfollow_nonfollowers lines 380-382): the file is fully replaced with
one line per element of the set.  Iteration over a Python set visits each
element exactly once; the set is given here by an arbitrary enumeration
(a list), deduplicated as set construction does. -/
def replaceSnapshot (s : List Nat) : SnapshotFile := s.dedup.map renderId

/-- Embeds the snapshot read loops (get_do_not_follow_list lines 160-165,
get_followers_list lines 178-183, get_follows_list lines 196-201): parse
each line as an int and return the set of the parsed values. -/
def loadSnapshot (f : SnapshotFile) : Finset Nat := (f.map parseId).toFinset

/-! ## Parsed file state

The remaining operations are stated over the parsed view of the three
snapshot files: each file as the list of the integers on its lines, in file
order (possibly with duplicates; the set a Python load produces is the
dedup/toFinset of this list).  The round-trip theorem for
replaceSnapshot/loadSnapshot justifies working at this level. -/

/-- The three snapshot files of the bot (FOLLOWERS_FILE, FOLLOWS_FILE,
ALREADY_FOLLOWED_FILE), each as its parsed list of identifiers. -/
structure FileState where
  followersFile : List Nat
  followsFile : List Nat
  alreadyFollowedFile : List Nat
deriving DecidableEq

/-! ## Configuration state and bot_setup -/

/-- The BOT_CONFIG dictionary, as an association list in insertion order
(Python dicts preserve insertion order; updating an existing key keeps its
position). -/
abbrev ConfigDict := List (String × String)

/-- Dictionary update: replace the value of an existing key in place,
otherwise append the new binding. -/
def dictInsert (d : ConfigDict) (k v : String) : ConfigDict :=
  if d.any (fun p => p.1 = k) then d.map (fun p => if p.1 = k then (k, v) else p)
  else d ++ [(k, v)]

/-- Dictionary lookup. -/
def dictGet (d : ConfigDict) (k : String) : Option String :=
  (d.find? (fun p => p.1 = k)).map (fun p => p.2)

/-- The required configuration parameters (lines 58-61). -/
def required_parameters : List String :=
  ["OAUTH_TOKEN", "OAUTH_SECRET", "CONSUMER_KEY", "CONSUMER_SECRET",
   "TWITTER_HANDLE", "ALREADY_FOLLOWED_FILE", "FOLLOWERS_FILE", "FOLLOWS_FILE"]

/-- The parse loop of bot_setup (lines 50-55): each (parameter, value) pair
read from the configuration file is inserted into the existing BOT_CONFIG
dictionary (the dictionary is not cleared first, so old entries persist). -/
def merge_entries (cfg : ConfigDict) (entries : List (String × String)) : ConfigDict :=
  entries.foldl (fun d p => dictInsert d p.1 p.2) cfg

/-- Embeds bot_setup (lines 41-73) at the level of the configuration state:
merge the entries of the given configuration file into BOT_CONFIG, then
validate; if any required parameter is absent or empty the whole BOT_CONFIG
is reset to the empty dictionary (line 72) and the method returns.  The
file-creation, staleness warning and connection steps after a successful
validation do not change BOT_CONFIG and are outside this model. -/
def bot_setup (cfg : ConfigDict) (entries : List (String × String)) : ConfigDict :=
  let merged := merge_entries cfg entries
  if required_parameters.any (fun p => (dictGet merged p).getD "" = "") then [] else merged

/-! ## Remote pager and sync_follows

The paginated listing endpoint (followers.ids / friends.ids) is modelled by
the list of answers the remote returns to the successive calls, each answer
a page or a raised TwitterHTTPError message.  The call log records the
cursor argument of each call actually made (none for the initial call,
which passes no cursor). -/

/-- One page returned by the paginated listing endpoint. -/
structure Page where
  ids : List Nat
  next_cursor : Nat
deriving DecidableEq

/-- Embeds the while-loops of sync_follows (lines 122-129 and 140-147):
while the cursor is nonzero, call the endpoint with that cursor and append
the returned page to the file.  Returns (lines appended, call log, error
raised).  An exhausted mock (the loop would call again but no answer is
left) is reported as the error "mock exhausted"; claims only use mocks
whose last consumed answer carries cursor 0. -/
def pager_loop (cursor : Nat) :
    List (Except String Page) → List Nat × List (Option Nat) × Option String
  | [] => if cursor = 0 then ([], [], none) else ([], [], some "mock exhausted")
  | r :: rs =>
    if cursor = 0 then ([], [], none)
    else
      match r with
      | Except.error e => ([], [some cursor], some e)
      | Except.ok p =>
        let rest := pager_loop p.next_cursor rs
        (p.ids.dedup ++ rest.1, some cursor :: rest.2.1, rest.2.2)

/-- Embeds one role of sync_follows (followers: lines 114-129, follows:
lines 132-147): the initial call with no cursor, whose page replaces the
file (mode wb), then pager_loop appending (mode ab).  If the initial call
raises, the file keeps its prior content.  Returns (file content after,
call log, error raised). -/
def sync_role (prior : List Nat) :
    List (Except String Page) → List Nat × List (Option Nat) × Option String
  | [] => (prior, [], some "mock exhausted")
  | Except.error e :: _ => (prior, [none], some e)
  | Except.ok p :: rs =>
    let rest := pager_loop p.next_cursor rs
    (p.ids.dedup ++ rest.1, none :: rest.2.1, rest.2.2)

/-- Embeds sync_follows (lines 96-147) for a configured bot: sync the
followers role, then (only if no error was raised there) the follows role.
An error raised by a remote call propagates to the caller, with all file
writes made before it kept.  Returns (file state, call log, error). -/
def sync_follows (st : FileState) (followers_answers friends_answers : List (Except String Page)) :
    FileState × List (Option Nat) × Option String :=
  let rf := sync_role st.followersFile followers_answers
  match rf.2.2 with
  | some e => ({ st with followersFile := rf.1 }, rf.2.1, some e)
  | none =>
    let rg := sync_role st.followsFile friends_answers
    ({ st with followersFile := rf.1, followsFile := rg.1 }, rf.2.1 ++ rg.2.1, rg.2.2)

/-! ## Reconciler operations

Remote mutation capabilities (friendships.create, friendships.destroy,
mutes.users.create, mutes.users.destroy, favorites.create) are modelled as
functions from an identifier to Except String Unit: an error value is a
raised TwitterHTTPError carrying its message string. -/

/-- A tweet record from a search result, restricted to the fields the bot
reads: the author identifier and screen name. -/
structure Tweet where
  userId : Nat
  screenName : String
deriving DecidableEq

/-- Substring test on character lists. -/
def listIsInfixOf (xs ys : List Char) : Bool :=
  ys.tails.any (fun t => xs.isPrefixOf t)

/-- Embeds the test at line 299 of auto_follow, stated positively: whether
the lowercased error message contains the substring "blocked". -/
def mentionsBlocked (msg : String) : Bool :=
  listIsInfixOf ("blocked".data) (msg.data.map Char.toLower)

/-- The guard at lines 286-288 of auto_follow: the tweet author is not the
bot itself, is not already followed, and is not on the do-not-follow list. -/
def follow_condition (handle : String) (following do_not_follow : List Nat) (t : Tweet) : Bool :=
  t.screenName != handle && !(following.contains t.userId) && !(do_not_follow.contains t.userId)

/-- Embeds the per-tweet loop of auto_follow (lines 284-300).  On a
successful create the author is added to the in-memory following set; on a
raised error whose message does not mention "blocked" the whole run is
aborted (quit() at line 300), otherwise the error is only printed and the
loop continues.  Returns (create calls attempted in order, final following
set, aborted flag). -/
def auto_follow_loop (handle : String) (create : Nat → Except String Unit)
    (do_not_follow : List Nat) : List Tweet → List Nat → List Nat × List Nat × Bool
  | [], following => ([], following, false)
  | t :: ts, following =>
    if follow_condition handle following do_not_follow t then
      match create t.userId with
      | Except.ok _ =>
        let r := auto_follow_loop handle create do_not_follow ts (t.userId :: following)
        (t.userId :: r.1, r.2)
      | Except.error e =>
        if mentionsBlocked e then
          let r := auto_follow_loop handle create do_not_follow ts following
          (t.userId :: r.1, r.2)
        else ([t.userId], following, true)
    else auto_follow_loop handle create do_not_follow ts following

/-- Embeds auto_follow (lines 270-300) for a configured bot: run the
per-tweet loop over the search result, with the following and
do-not-follow sets loaded from the snapshot files.  Returns (create calls
attempted, aborted flag). -/
def auto_follow (handle : String) (create : Nat → Except String Unit)
    (search_result : List Tweet) (st : FileState) : List Nat × Bool :=
  let r := auto_follow_loop handle create st.alreadyFollowedFile.dedup
    search_result st.followsFile.dedup
  (r.1, r.2.2)

/-- Embeds the loop of auto_follow_followers (lines 318-322): each create
is attempted inside try/except Exception, so a failure on one identifier is
printed and the loop continues.  Returns (create calls attempted, error
messages logged). -/
def follow_back_loop (create : Nat → Except String Unit) :
    List Nat → List Nat × List String
  | [] => ([], [])
  | id :: rest =>
    let r := follow_back_loop create rest
    match create id with
    | Except.ok _ => (id :: r.1, r.2)
    | Except.error e => (id :: r.1, e :: r.2)

/-- Embeds auto_follow_followers (lines 303-322) for a configured bot:
the candidates are followers minus following, and every candidate is
attempted regardless of earlier failures. -/
def auto_follow_followers (create : Nat → Except String Unit) (st : FileState) :
    List Nat × List String :=
  follow_back_loop create
    (st.followersFile.dedup.filter (fun id => !(st.followsFile.contains id)))

/-- Embeds the loop of auto_follow_followers_of_user (lines 339-348): skip
identifiers already followed or on the do-not-follow list; each create is
attempted inside try/except TwitterHTTPError, so a remote failure is
printed and the loop continues.  Returns (create calls attempted, error
messages logged). -/
def followers_of_loop (create : Nat → Except String Unit) (following do_not_follow : List Nat) :
    List Nat → List Nat × List String
  | [] => ([], [])
  | id :: rest =>
    let r := followers_of_loop create following do_not_follow rest
    if !(following.contains id) && !(do_not_follow.contains id) then
      match create id with
      | Except.ok _ => (id :: r.1, r.2)
      | Except.error e => (id :: r.1, e :: r.2)
    else r

/-- Embeds auto_follow_followers_of_user (lines 325-348) for a configured
bot: the remote followers of the given user, truncated to count and made a
set, are filtered against following and do-not-follow and followed. -/
def auto_follow_followers_of_user (create : Nat → Except String Unit)
    (followers_of_user : List Nat) (count : Nat) (st : FileState) :
    List Nat × List String :=
  followers_of_loop create st.followsFile st.alreadyFollowedFile
    ((followers_of_user.take count).dedup)

/-- The uncaught mutation loop shared by auto_unfollow_nonfollowers (lines
384-387), auto_mute_following (lines 409-412) and auto_unmute (lines
431-434): identifiers in the keep set are skipped, and there is no
try/except, so the first raised error propagates and ends the loop with the
remaining identifiers unattempted.  Returns (calls attempted, propagated
error). -/
def mutate_keep_loop (action : Nat → Except String Unit) (keep : List Nat) :
    List Nat → List Nat × Option String
  | [] => ([], none)
  | id :: rest =>
    if keep.contains id then mutate_keep_loop action keep rest
    else
      match action id with
      | Except.ok _ =>
        let r := mutate_keep_loop action keep rest
        (id :: r.1, r.2)
      | Except.error e => ([id], some e)

/-- Embeds auto_unfollow_nonfollowers (lines 351-387) for a configured bot.
The local users_keep_following (line 367, an empty set in the source, with
a comment inviting the operator to put identifiers there) is lifted to the
parameter users_keep_following.  The already-followed file is rewritten to
the union of its prior content with following minus followers before the
destroy loop runs.  Returns (file state, destroy calls attempted,
propagated error). -/
def auto_unfollow_nonfollowers (destroy : Nat → Except String Unit)
    (users_keep_following : List Nat) (st : FileState) :
    FileState × List Nat × Option String :=
  let not_following_back := st.followsFile.dedup.filter
    (fun id => !(st.followersFile.contains id))
  let already_followed := (not_following_back ++ st.alreadyFollowedFile).dedup
  let r := mutate_keep_loop destroy users_keep_following not_following_back
  ({ st with alreadyFollowedFile := already_followed }, r.1, r.2)

/-- Embeds auto_mute_following (lines 390-412) for a configured bot, with
the remote muted set given as the ids answer of mutes.users.ids and the
local users_keep_unmuted (line 407) lifted to a parameter.  The mute loop
has no try/except.  Returns (mute calls attempted, propagated error). -/
def auto_mute_following (create_mute : Nat → Except String Unit)
    (users_keep_unmuted : List Nat) (muted_remote : List Nat) (st : FileState) :
    List Nat × Option String :=
  mutate_keep_loop create_mute users_keep_unmuted
    (st.followsFile.dedup.filter (fun id => !(muted_remote.contains id)))

/-- Embeds auto_unmute (lines 415-434) for a configured bot, with the
remote muted set given as the ids answer of mutes.users.ids and the local
users_keep_muted (line 429) lifted to a parameter.  The unmute loop has no
try/except.  Returns (unmute calls attempted, propagated error). -/
def auto_unmute (destroy_mute : Nat → Except String Unit)
    (users_keep_muted : List Nat) (muted_remote : List Nat) :
    List Nat × Option String :=
  mutate_keep_loop destroy_mute users_keep_muted muted_remote.dedup

/-! ## Guarded public operations

Every public method begins with the guard (for example lines 108-111,
155-158): if BOT_CONFIG is the empty dictionary, print that the bot has not
been set up and return None.  Each wrapper below takes the BOT_CONFIG
dictionary and reproduces that guard around the corresponding operation;
the trailing Bool of each result records whether the not-set-up message was
printed.  The handle is read from the TWITTER_HANDLE configuration key. -/

/-- The TWITTER_HANDLE entry of the configuration. -/
def config_handle (cfg : ConfigDict) : String := (dictGet cfg "TWITTER_HANDLE").getD ""

/-- sync_follows with its not-set-up guard (lines 108-111). -/
def sync_follows_op (cfg : ConfigDict) (st : FileState)
    (followers_answers friends_answers : List (Except String Page)) :
    FileState × List (Option Nat) × Option String × Bool :=
  if cfg = [] then (st, [], none, true)
  else
    let r := sync_follows st followers_answers friends_answers
    (r.1, r.2.1, r.2.2, false)

/-- get_do_not_follow_list with its guard (lines 155-158): returns the set
parsed from the already-followed file, or None when not set up. -/
def get_do_not_follow_list_op (cfg : ConfigDict) (st : FileState) :
    Option (Finset Nat) × Bool :=
  if cfg = [] then (none, true) else (some st.alreadyFollowedFile.toFinset, false)

/-- get_followers_list with its guard (lines 173-176). -/
def get_followers_list_op (cfg : ConfigDict) (st : FileState) :
    Option (Finset Nat) × Bool :=
  if cfg = [] then (none, true) else (some st.followersFile.toFinset, false)

/-- get_follows_list with its guard (lines 191-194). -/
def get_follows_list_op (cfg : ConfigDict) (st : FileState) :
    Option (Finset Nat) × Bool :=
  if cfg = [] then (none, true) else (some st.followsFile.toFinset, false)

/-- search_tweets with its guard (lines 209-212): when set up it makes one
remote search call and returns its result.  The middle component counts the
remote calls issued. -/
def search_tweets_op (cfg : ConfigDict) (remote_result : List Tweet) :
    Option (List Tweet) × Nat × Bool :=
  if cfg = [] then (none, 0, true) else (some remote_result, 1, false)

/-- auto_follow with its guard (lines 276-278). -/
def auto_follow_op (cfg : ConfigDict) (create : Nat → Except String Unit)
    (search_result : List Tweet) (st : FileState) : List Nat × Bool × Bool :=
  if cfg = [] then ([], false, true)
  else
    let r := auto_follow (config_handle cfg) create search_result st
    (r.1, r.2, false)

/-- auto_follow_followers with its guard (lines 309-311). -/
def auto_follow_followers_op (cfg : ConfigDict) (create : Nat → Except String Unit)
    (st : FileState) : List Nat × List String × Bool :=
  if cfg = [] then ([], [], true)
  else
    let r := auto_follow_followers create st
    (r.1, r.2, false)

/-- auto_follow_followers_of_user with its guard (lines 331-333). -/
def auto_follow_followers_of_user_op (cfg : ConfigDict)
    (create : Nat → Except String Unit) (followers_of_user : List Nat) (count : Nat)
    (st : FileState) : List Nat × List String × Bool :=
  if cfg = [] then ([], [], true)
  else
    let r := auto_follow_followers_of_user create followers_of_user count st
    (r.1, r.2, false)

/-- auto_unfollow_nonfollowers with its guard (lines 357-359). -/
def auto_unfollow_nonfollowers_op (cfg : ConfigDict)
    (destroy : Nat → Except String Unit) (users_keep_following : List Nat)
    (st : FileState) : FileState × List Nat × Option String × Bool :=
  if cfg = [] then (st, [], none, true)
  else
    let r := auto_unfollow_nonfollowers destroy users_keep_following st
    (r.1, r.2.1, r.2.2, false)

/-- auto_mute_following with its guard (lines 396-398). -/
def auto_mute_following_op (cfg : ConfigDict) (create_mute : Nat → Except String Unit)
    (users_keep_unmuted : List Nat) (muted_remote : List Nat) (st : FileState) :
    List Nat × Option String × Bool :=
  if cfg = [] then ([], none, true)
  else
    let r := auto_mute_following create_mute users_keep_unmuted muted_remote st
    (r.1, r.2, false)

/-- auto_unmute with its guard (lines 421-423). -/
def auto_unmute_op (cfg : ConfigDict) (destroy_mute : Nat → Except String Unit)
    (users_keep_muted : List Nat) (muted_remote : List Nat) :
    List Nat × Option String × Bool :=
  if cfg = [] then ([], none, true)
  else
    let r := auto_unmute destroy_mute users_keep_muted muted_remote
    (r.1, r.2, false)

/-! ## Helper lemmas -/

/-- Decimal round trip for one line: parsing the rendered form of an
identifier gives the identifier back. -/
theorem parseId_renderId (n : Nat) : parseId (renderId n) = n := by
  by_cases h0 : n = 0
  · subst h0; decide
  · have hmap : ((Nat.digits 10 n).reverse.map digitChar).map charDigit
        = (Nat.digits 10 n).reverse := by
      rw [List.map_map]
      have : ∀ d ∈ (Nat.digits 10 n).reverse, (charDigit ∘ digitChar) d = id d := by
        intro d hd
        have hd10 : d < 10 :=
          Nat.digits_lt_base (by norm_num) (List.mem_reverse.mp hd)
        have hchar : (Char.ofNat (48 + d)).toNat = 48 + d := by
          interval_cases d <;> decide
        simp [charDigit, digitChar, hchar]
      rw [List.map_congr_left this, List.map_id]
    simp only [parseId, renderId, h0, if_false, hmap, List.reverse_reverse]
    exact Nat.ofDigits_digits 10 n

/-- The dedup of a list carries the same set as the list. -/
theorem dedup_toFinset (l : List Nat) : l.dedup.toFinset = l.toFinset := by
  ext x; simp [List.mem_dedup]

/-- The candidate filter used by the reconcilers computes the set
difference of the two file contents. -/
theorem filter_not_contains_toFinset (l m : List Nat) :
    (l.dedup.filter (fun id => !(m.contains id))).toFinset = l.toFinset \ m.toFinset := by
  ext x; simp [List.mem_filter, List.mem_dedup]

/-- follow_back_loop attempts every candidate, whatever the remote
answers: the try/except Exception at lines 319-322 swallows any failure. -/
theorem follow_back_loop_calls (create : Nat → Except String Unit) (l : List Nat) :
    (follow_back_loop create l).1 = l := by
  induction l with
  | nil => rfl
  | cons id rest ih =>
    simp only [follow_back_loop]
    cases create id <;> simp [ih]

/-- A second run of one sync role from the state the first run left behind
gives the same result as the first run: the role either ignores the prior
file content (initial call answered by a page, mode wb truncates) or
returns it unchanged (initial call raises, or no answer). -/
theorem sync_role_prior (answers : List (Except String Page)) (p : List Nat) :
    sync_role (sync_role p answers).1 answers = sync_role p answers := by
  cases answers with
  | nil => rfl
  | cons r rs => cases r <;> rfl

/-- With a remote that answers every mutation successfully,
mutate_keep_loop attempts exactly the candidates outside the keep set. -/
theorem mutate_keep_loop_all_ok (action : Nat → Except String Unit) (keep l : List Nat)
    (h : ∀ id, action id = Except.ok ()) :
    mutate_keep_loop action keep l = (l.filter (fun id => !(keep.contains id)), none) := by
  induction l with
  | nil => rfl
  | cons id rest ih =>
    simp only [mutate_keep_loop]
    cases hk : keep.contains id <;>
      simp only [List.elem_eq_mem, decide_eq_true_eq] at hk <;>
      simp [hk, h id, ih, List.filter_cons]

/-! ## Claim theorems -/

/-- C7: Snapshot round-trip — replacing a snapshot with the set enumerated
by a list and loading it back returns exactly that set, and loading an
existing but empty file returns the empty set. -/
theorem snapshot_round_trip :
    (∀ s : List Nat, loadSnapshot (replaceSnapshot s) = s.toFinset)
    ∧ loadSnapshot [] = ∅ := by
  constructor
  · intro s
    simp only [loadSnapshot, replaceSnapshot, List.map_map]
    have : ∀ n ∈ s.dedup, (parseId ∘ renderId) n = id n := by
      intro n _; simp [parseId_renderId n]
    rw [List.map_congr_left this, List.map_id, dedup_toFinset]
  · rfl

/-- C8: with an empty configuration every public operation is a no-op that
reports the not-set-up message: no remote call is issued, no snapshot file
changes, and no value is returned. -/
theorem unconfigured_ops_noop :
    (∀ st fa ga, sync_follows_op [] st fa ga = (st, [], none, true))
    ∧ (∀ st, get_do_not_follow_list_op [] st = (none, true))
    ∧ (∀ st, get_followers_list_op [] st = (none, true))
    ∧ (∀ st, get_follows_list_op [] st = (none, true))
    ∧ (∀ res, search_tweets_op [] res = (none, 0, true))
    ∧ (∀ create sr st, auto_follow_op [] create sr st = ([], false, true))
    ∧ (∀ create st, auto_follow_followers_op [] create st = ([], [], true))
    ∧ (∀ create fl c st,
        auto_follow_followers_of_user_op [] create fl c st = ([], [], true))
    ∧ (∀ destroy keep st,
        auto_unfollow_nonfollowers_op [] destroy keep st = (st, [], none, true))
    ∧ (∀ cm keep m st, auto_mute_following_op [] cm keep m st = ([], none, true))
    ∧ (∀ dm keep m, auto_unmute_op [] dm keep m = ([], none, true)) := by
  refine ⟨?_, ?_, ?_, ?_, ?_, ?_, ?_, ?_, ?_, ?_, ?_⟩ <;> intros <;> rfl

/-- C4: follow-back attempts a create exactly for the identifiers in
followers minus following — each exactly once, never one already followed —
and on followers 1,2,3 with following 2,3,4 it acts exactly on 1. -/
theorem follow_back_exact :
    (∀ (create : Nat → Except String Unit) (st : FileState),
      (auto_follow_followers create st).1.toFinset
          = st.followersFile.toFinset \ st.followsFile.toFinset
      ∧ (auto_follow_followers create st).1.Nodup
      ∧ Disjoint (auto_follow_followers create st).1.toFinset
          st.followsFile.toFinset)
    ∧ (auto_follow_followers (fun _ => Except.ok ())
        ⟨[1, 2, 3], [2, 3, 4], []⟩).1 = [1] := by
  constructor
  · intro create st
    have hc : (auto_follow_followers create st).1
        = st.followersFile.dedup.filter (fun id => !(st.followsFile.contains id)) :=
      follow_back_loop_calls create _
    refine ⟨?_, ?_, ?_⟩
    · rw [hc, filter_not_contains_toFinset]
    · rw [hc]; exact List.Nodup.filter _ st.followersFile.nodup_dedup
    · rw [hc, filter_not_contains_toFinset]; exact Finset.sdiff_disjoint
  · decide

/-- C3: unfollow-nonfollowers persists the ledger union of its prior
content with following minus followers regardless of the keep set and of
the destroy outcomes (the ledger write precedes the destroy loop), so the
ledger only grows; and when every destroy succeeds, the destroy calls are
exactly the identifiers of (following minus followers) minus the keep set,
each exactly once. -/
theorem unfollow_nonfollowers_exact (destroy : Nat → Except String Unit)
    (keep : List Nat) (st : FileState) :
    (auto_unfollow_nonfollowers destroy keep st).1.alreadyFollowedFile.toFinset
        = st.alreadyFollowedFile.toFinset
            ∪ (st.followsFile.toFinset \ st.followersFile.toFinset)
    ∧ st.alreadyFollowedFile.toFinset
        ⊆ (auto_unfollow_nonfollowers destroy keep st).1.alreadyFollowedFile.toFinset
    ∧ ((∀ id, destroy id = Except.ok ()) →
        (auto_unfollow_nonfollowers destroy keep st).2.1.toFinset
            = (st.followsFile.toFinset \ st.followersFile.toFinset) \ keep.toFinset
        ∧ (auto_unfollow_nonfollowers destroy keep st).2.1.Nodup) := by
  have hledger : (auto_unfollow_nonfollowers destroy keep st).1.alreadyFollowedFile.toFinset
      = st.alreadyFollowedFile.toFinset
          ∪ (st.followsFile.toFinset \ st.followersFile.toFinset) := by
    show ((st.followsFile.dedup.filter (fun id => !(st.followersFile.contains id))
        ++ st.alreadyFollowedFile).dedup).toFinset = _
    rw [dedup_toFinset, List.toFinset_append, filter_not_contains_toFinset]
    exact Finset.union_comm _ _
  refine ⟨hledger, ?_, ?_⟩
  · rw [hledger]; exact Finset.subset_union_left
  · intro hok
    have hcalls : (auto_unfollow_nonfollowers destroy keep st).2.1
        = (st.followsFile.dedup.filter (fun id => !(st.followersFile.contains id))).filter
            (fun id => !(keep.contains id)) := by
      show (mutate_keep_loop destroy keep _).1 = _
      rw [mutate_keep_loop_all_ok destroy keep _ hok]
    constructor
    · rw [hcalls]
      ext x
      simp [List.mem_filter, List.mem_dedup]
      tauto
    · rw [hcalls]
      exact List.Nodup.filter _ (List.Nodup.filter _ st.followsFile.nodup_dedup)

/-- Witness for unfollow_nonfollowers_exact: followers 1,2,3; following
2,3,4,9; keep 4; all destroys succeed — the destroy calls are exactly 9 and
the ledger becomes the old content 7 plus 4 and 9. -/
theorem unfollow_nonfollowers_exact_witness :
    (auto_unfollow_nonfollowers (fun _ => Except.ok ()) [4]
        ⟨[1, 2, 3], [2, 3, 4, 9], [7]⟩).2.1.toFinset
      = ((([2, 3, 4, 9] : List Nat).toFinset \ ([1, 2, 3] : List Nat).toFinset)
          \ ([4] : List Nat).toFinset)
    ∧ (auto_unfollow_nonfollowers (fun _ => Except.ok ()) [4]
        ⟨[1, 2, 3], [2, 3, 4, 9], [7]⟩).2.1.Nodup :=
  (unfollow_nonfollowers_exact (fun _ => Except.ok ()) [4]
    ⟨[1, 2, 3], [2, 3, 4, 9], [7]⟩).2.2 (fun _ => rfl)

/-- C5: on a mock whose three successive answers carry the cursors c1, c2
and 0 (c1 and c2 nonzero), one sync role makes exactly three listing calls
— the first with no cursor, then one per returned cursor — and the
resulting file content is the union of the identifiers of the three
pages. -/
theorem pager_three_pages (prior i1 i2 i3 : List Nat) (c1 c2 : Nat)
    (h1 : c1 ≠ 0) (h2 : c2 ≠ 0) :
    sync_role prior
        [Except.ok ⟨i1, c1⟩, Except.ok ⟨i2, c2⟩, Except.ok ⟨i3, 0⟩]
      = (i1.dedup ++ i2.dedup ++ i3.dedup, [none, some c1, some c2], none)
    ∧ (i1.dedup ++ i2.dedup ++ i3.dedup).toFinset
        = i1.toFinset ∪ i2.toFinset ∪ i3.toFinset := by
  constructor
  · simp [sync_role, pager_loop, h1, h2]
  · simp [List.toFinset_append, dedup_toFinset]

/-- Witness for pager_three_pages at the cursor sequence 5, 9, 0. -/
theorem pager_three_pages_witness :
    sync_role [99] [Except.ok ⟨[1, 2], 5⟩, Except.ok ⟨[2, 3], 9⟩, Except.ok ⟨[4], 0⟩]
      = ([1, 2] ++ [2, 3] ++ [4], [none, some 5, some 9], none)
    ∧ ([1, 2] ++ [2, 3] ++ [4] : List Nat).toFinset
        = ([1, 2] : List Nat).toFinset ∪ ([2, 3] : List Nat).toFinset
            ∪ ([4] : List Nat).toFinset :=
  pager_three_pages [99] [1, 2] [2, 3] [4] 5 9 (by decide) (by decide)

/-- C6: sync_follows is idempotent — re-running it against the same remote
answers from the file state the first run produced leaves the file state
(all three snapshot files) unchanged. -/
theorem sync_follows_idempotent (st : FileState) (fa ga : List (Except String Page)) :
    (sync_follows (sync_follows st fa ga).1 fa ga).1 = (sync_follows st fa ga).1 := by
  have hf := sync_role_prior fa st.followersFile
  have hg := sync_role_prior ga st.followsFile
  rcases hrf : (sync_role st.followersFile fa).2.2 with _ | e
  · rcases hrg : (sync_role st.followsFile ga).2.2 with _ | e2
    · simp only [sync_follows, hrf, hrg]
      rw [hf, hg]
      simp [hrf, hrg]
    · simp only [sync_follows, hrf, hrg]
      rw [hf, hg]
      simp [hrf, hrg]
  · simp only [sync_follows, hrf]
    rw [hf]
    simp [hrf]

/-- C10: sync_follows is not atomic across the two roles — if the follows
listing raises after the followers phase completed without error, the error
propagates to the caller, the followers file already holds the freshly
fetched remote data (independent of its prior content), and the follows
file keeps its prior content. -/
theorem sync_follows_not_atomic (st : FileState) (fa : List (Except String Page))
    (e : String) (rest : List (Except String Page))
    (hok : (sync_role st.followersFile fa).2.2 = none) :
    (sync_follows st fa (Except.error e :: rest)).2.2 = some e
    ∧ (sync_follows st fa (Except.error e :: rest)).1.followersFile
        = (sync_role st.followersFile fa).1
    ∧ (sync_follows st fa (Except.error e :: rest)).1.followsFile = st.followsFile
    ∧ ∀ other : List Nat, (sync_role other fa).1 = (sync_role st.followersFile fa).1 := by
  refine ⟨?_, ?_, ?_, ?_⟩
  · simp only [sync_follows, hok]
    rfl
  · simp only [sync_follows, hok]
  · simp only [sync_follows, hok]
    rfl
  · intro other
    match fa with
    | [] => simp [sync_role] at hok
    | Except.error e2 :: rs => simp [sync_role] at hok
    | Except.ok p :: rs => rfl

/-- Witness for sync_follows_not_atomic: one followers page 7, prior state
with followers 1, follows 2, ledger 3, and a follows listing that raises
"boom" on its first call. -/
theorem sync_follows_not_atomic_witness :
    (sync_follows ⟨[1], [2], [3]⟩ [Except.ok ⟨[7], 0⟩] (Except.error "boom" :: [])).2.2
        = some "boom"
    ∧ (sync_follows ⟨[1], [2], [3]⟩ [Except.ok ⟨[7], 0⟩]
        (Except.error "boom" :: [])).1.followersFile
        = (sync_role (⟨[1], [2], [3]⟩ : FileState).followersFile
            [Except.ok ⟨[7], 0⟩]).1
    ∧ (sync_follows ⟨[1], [2], [3]⟩ [Except.ok ⟨[7], 0⟩]
        (Except.error "boom" :: [])).1.followsFile = [2]
    ∧ ∀ other : List Nat,
        (sync_role other [Except.ok ⟨[7], 0⟩]).1
          = (sync_role (⟨[1], [2], [3]⟩ : FileState).followersFile
              [Except.ok ⟨[7], 0⟩]).1 :=
  sync_follows_not_atomic ⟨[1], [2], [3]⟩ [Except.ok ⟨[7], 0⟩] "boom" [] rfl

/-- The auto_follow loop factors over a split of the search result: if the
prefix aborts, the suffix is never reached; otherwise the suffix is
processed from the state the prefix left. -/
theorem auto_follow_loop_append (handle : String) (create : Nat → Except String Unit)
    (dnf : List Nat) (xs ys : List Tweet) (f : List Nat) :
    auto_follow_loop handle create dnf (xs ++ ys) f =
      if (auto_follow_loop handle create dnf xs f).2.2 then
        auto_follow_loop handle create dnf xs f
      else
        ((auto_follow_loop handle create dnf xs f).1
           ++ (auto_follow_loop handle create dnf ys
                (auto_follow_loop handle create dnf xs f).2.1).1,
         (auto_follow_loop handle create dnf ys
            (auto_follow_loop handle create dnf xs f).2.1).2) := by
  induction xs generalizing f with
  | nil => simp [auto_follow_loop]
  | cons t ts ih =>
    cases hcond : follow_condition handle f dnf t with
    | false => simpa [auto_follow_loop, hcond] using ih f
    | true =>
      cases hcr : create t.userId with
      | ok u =>
        cases habort : (auto_follow_loop handle create dnf ts (t.userId :: f)).2.2 with
        | false =>
          simp [auto_follow_loop, hcond, hcr, ih (t.userId :: f), habort]
        | true =>
          simp [auto_follow_loop, hcond, hcr, ih (t.userId :: f), habort]
      | error e =>
        cases hb : mentionsBlocked e with
        | false => simp [auto_follow_loop, hcond, hcr, hb]
        | true =>
          cases habort : (auto_follow_loop handle create dnf ts f).2.2 with
          | false => simp [auto_follow_loop, hcond, hcr, hb, ih f, habort]
          | true => simp [auto_follow_loop, hcond, hcr, hb, ih f, habort]

/-- C1: in auto_follow, for any split of the search result around an item
whose create call raises, if the prefix ran without aborting and the raised
message does not mention "blocked", the run aborts right there — the calls
are those of the prefix plus the failing one and no later item is processed
— while if the message mentions "blocked", the error is only logged and the
loop continues over the remaining items. -/
theorem auto_follow_error_policy (handle : String) (create : Nat → Except String Unit)
    (st : FileState) (pre post : List Tweet) (t : Tweet) (e : String)
    (rp : List Nat × List Nat × Bool)
    (hpre : rp = auto_follow_loop handle create st.alreadyFollowedFile.dedup
        pre st.followsFile.dedup)
    (hnoabort : rp.2.2 = false)
    (hcond : follow_condition handle rp.2.1 st.alreadyFollowedFile.dedup t = true)
    (hcr : create t.userId = Except.error e) :
    (mentionsBlocked e = false →
      auto_follow handle create (pre ++ t :: post) st = (rp.1 ++ [t.userId], true))
    ∧ (mentionsBlocked e = true →
      auto_follow handle create (pre ++ t :: post) st
        = (rp.1 ++ t.userId
             :: (auto_follow_loop handle create st.alreadyFollowedFile.dedup
                  post rp.2.1).1,
           (auto_follow_loop handle create st.alreadyFollowedFile.dedup
              post rp.2.1).2.2)) := by
  subst hpre
  constructor
  · intro hb
    simp [auto_follow, auto_follow_loop_append, hnoabort, auto_follow_loop, hcond, hcr, hb]
  · intro hb
    simp [auto_follow, auto_follow_loop_append, hnoabort, auto_follow_loop, hcond, hcr, hb]

/-- Witness for auto_follow_error_policy: five tweets by users 1..5, a
remote that raises the non-blocked message "server error" on user 2 — the
run follows 1, attempts 2, aborts, and users 3, 4 and 5 are never
processed. -/
theorem auto_follow_error_policy_witness :
    auto_follow "me"
        (fun id => if id = 2 then Except.error "server error" else Except.ok ())
        ([⟨1, "a"⟩] ++ ⟨2, "b"⟩ :: [⟨3, "c"⟩, ⟨4, "d"⟩, ⟨5, "f"⟩])
        ⟨[], [], []⟩
      = (([1] : List Nat) ++ [2], true) :=
  (auto_follow_error_policy "me"
      (fun id => if id = 2 then Except.error "server error" else Except.ok ())
      ⟨[], [], []⟩ [⟨1, "a"⟩] [⟨3, "c"⟩, ⟨4, "d"⟩, ⟨5, "f"⟩] ⟨2, "b"⟩ "server error"
      ([1], [1], false) (by decide) rfl (by decide) rfl).1 (by decide)

/-- followers_of_loop attempts exactly the candidates passing its filter,
whatever the remote answers: the try/except TwitterHTTPError at lines
347-348 swallows any remote failure. -/
theorem followers_of_loop_calls (create : Nat → Except String Unit)
    (following dnf l : List Nat) :
    (followers_of_loop create following dnf l).1
      = l.filter (fun id => !(following.contains id) && !(dnf.contains id)) := by
  induction l with
  | nil => rfl
  | cons id rest ih =>
    by_cases h1 : id ∈ following
    · simp [followers_of_loop, List.filter_cons, h1, ih]
    · by_cases h2 : id ∈ dnf
      · simp [followers_of_loop, List.filter_cons, h1, h2, ih]
      · cases hcr : create id <;>
          simp [followers_of_loop, List.filter_cons, h1, h2, hcr, ih]

/-- With no try/except around the mutation, a failure in the middle of the
candidate list ends the loop: the calls are the non-kept prefix plus the
failing identifier, the error propagates, and the suffix is never
attempted. -/
theorem mutate_keep_loop_prefix_error (action : Nat → Except String Unit)
    (keep : List Nat) (pre : List Nat) (id : Nat) (e : String) (post : List Nat)
    (hpre : ∀ j ∈ pre, keep.contains j = true ∨ action j = Except.ok ())
    (hid : keep.contains id = false)
    (he : action id = Except.error e) :
    mutate_keep_loop action keep (pre ++ id :: post)
      = (pre.filter (fun j => !(keep.contains j)) ++ [id], some e) := by
  have hidm : id ∉ keep := by simpa using hid
  induction pre with
  | nil => simp [mutate_keep_loop, hidm, he]
  | cons j rest ih =>
    have hj := hpre j (by simp)
    have hrest : ∀ x ∈ rest, keep.contains x = true ∨ action x = Except.ok () :=
      fun x hx => hpre x (by simp [hx])
    by_cases hjm : j ∈ keep
    · simp [mutate_keep_loop, hjm, List.filter_cons, ih hrest]
    · have hja : action j = Except.ok () := by
        rcases hj with h | h
        · exact absurd (by simpa using h) hjm
        · exact h
      simp [mutate_keep_loop, hjm, hja, List.filter_cons, ih hrest]

/-- C2 counterexample: in unfollow-nonfollowers with followers empty and
following 1 and 2, the destroy set is 1 and 2, yet with a remote that
raises "rate limit" on every destroy only the call on 1 is attempted and
the error propagates — the loop does not proceed to 2. -/
theorem bulk_ops_error_policy_counterexample :
    ((⟨[], [1, 2], []⟩ : FileState).followsFile.toFinset
        \ (⟨[], [1, 2], []⟩ : FileState).followersFile.toFinset) = {1, 2}
    ∧ (auto_unfollow_nonfollowers (fun _ => Except.error "rate limit") []
        (⟨[], [1, 2], []⟩ : FileState)).2 = ([1], some "rate limit") := by
  constructor
  · decide
  · rfl

/-- C2 amended: follow-back and follow-followers-of attempt every
candidate independently, whatever the remote answers (their loops catch and
log failures); but the mutation loops of unfollow-nonfollowers, mute-all
and unmute-all have no error handling — a raised error there ends the loop
with the remaining identifiers unattempted. -/
theorem bulk_ops_error_policy :
    (∀ (create : Nat → Except String Unit) (st : FileState),
      (auto_follow_followers create st).1
        = st.followersFile.dedup.filter (fun id => !(st.followsFile.contains id)))
    ∧ (∀ (create : Nat → Except String Unit) (fl : List Nat) (count : Nat)
        (st : FileState),
      (auto_follow_followers_of_user create fl count st).1
        = ((fl.take count).dedup).filter
            (fun id => !(st.followsFile.contains id)
              && !(st.alreadyFollowedFile.contains id)))
    ∧ (∀ (action : Nat → Except String Unit) (keep pre : List Nat) (id : Nat)
        (e : String) (post : List Nat),
      (∀ j ∈ pre, keep.contains j = true ∨ action j = Except.ok ()) →
      keep.contains id = false →
      action id = Except.error e →
      mutate_keep_loop action keep (pre ++ id :: post)
        = (pre.filter (fun j => !(keep.contains j)) ++ [id], some e)) :=
  ⟨fun create _ => follow_back_loop_calls create _,
   fun create _ _ _ => followers_of_loop_calls create _ _ _,
   mutate_keep_loop_prefix_error⟩

/-- Witness for bulk_ops_error_policy: a remote failing only on 2, with
candidates 1, 2, 3 and an empty keep set — the loop stops at 2 with 3
unattempted. -/
theorem bulk_ops_error_policy_witness :
    mutate_keep_loop (fun j => if j = 2 then Except.error "oops" else Except.ok ())
        [] ([1] ++ 2 :: [3])
      = ([1, 2], some "oops") :=
  bulk_ops_error_policy.2.2
    (fun j => if j = 2 then Except.error "oops" else Except.ok ())
    [] [1] 2 "oops" [3]
    (by intro j hj; simp at hj; subst hj; exact Or.inr rfl)
    rfl rfl

/-- C9 counterexample: a first bot_setup with all eight required
parameters present and non-empty reaches the Ready state (a non-empty
validated BOT_CONFIG); re-running bot_setup with a configuration file whose
single line assigns the empty value to OAUTH_TOKEN makes the merged
dictionary fail validation, so line 72 resets BOT_CONFIG to the empty
dictionary — a Ready to Unconfigured transition inside one process. -/
theorem ready_to_unconfigured_counterexample :
    bot_setup [] (required_parameters.map (fun p => (p, "x")))
        = required_parameters.map (fun p => (p, "x"))
    ∧ required_parameters.map (fun p => (p, "x")) ≠ []
    ∧ bot_setup (required_parameters.map (fun p => (p, "x")))
        [("OAUTH_TOKEN", "")] = [] := by
  refine ⟨by decide, by decide, by decide⟩

/-- C9 amended: bot_setup is the only operation that writes BOT_CONFIG,
and it leaves the bot Unconfigured (empty BOT_CONFIG) exactly when, after
merging the new file entries into the existing configuration, some required
parameter is missing or empty — in particular a Ready bot is taken back to
Unconfigured by a re-run whose file empties a required parameter, and by
nothing else. -/
theorem bot_setup_unconfigured_transition (cfg : ConfigDict)
    (entries : List (String × String)) :
    bot_setup cfg entries = []
      ↔ ∃ p ∈ required_parameters, (dictGet (merge_entries cfg entries) p).getD "" = "" := by
  simp only [bot_setup]
  by_cases h : required_parameters.any
      (fun p => (dictGet (merge_entries cfg entries) p).getD "" = "") = true
  · rw [if_pos]
    · simp only [true_iff, eq_self_iff_true]
      simpa [List.any_eq_true] using h
    · simpa using h
  · rw [if_neg]
    · constructor
      · intro hempty
        exfalso
        have hm : (dictGet (merge_entries cfg entries) "OAUTH_TOKEN").getD "" = "" := by
          rw [hempty]; rfl
        exact h (by simp only [List.any_eq_true]
                    exact ⟨"OAUTH_TOKEN", by decide, by simpa using hm⟩)
      · intro hex
        exact absurd (by simpa [List.any_eq_true] using hex) h
    · simpa using h

end TwitterFollowBot
